import Mathlib

/-!
Shallow embedding of `src/batched-queue.js` (class `BatchedQueue`).

The queue owns an ordered buffer, numeric thresholds, a pause flag and at
most one pending timer.  Every public operation is modelled as a pure
function from a queue state to the successor state together with the list
of externally observable events it produced (the `'flush'` event emits,
cargo-handler invocations, and the overflow diagnostic log line).

JavaScript details embedded faithfully:
  * options are `x || DEFAULT`, so both an absent option and a configured
    `0` fall back to the default (`jsOr`);
  * `push`/`unshift` drop the item only when `this._q.length >
    this._safetyLimit` holds *strictly* before the append;
  * `_flush` guards its cargo branch with `this.cargoMode && ...`; no
    property named `cargoMode` is ever assigned on the object (the
    constructor assigns `this._cargoMode`), so the read yields `undefined`,
    which is falsy (`jsPropCargoMode`);
  * the timer is a single handle.  `timer` records whether one is pending;
    the ghost counter `arms` counts the `setTimeout` calls made so far, so
    that "the pending timer was left untouched" is distinguishable from
    "the timer was cleared and re-armed".
-/

namespace BatchedQueue

/-- Constructor options.  A numeric field is `none` when the option is
absent; `cargo` records whether `options.cargo` is a function. -/
structure Options where
  limit : Option Nat
  interval : Option Nat
  cargo : Bool
  cargoLimit : Option Nat
  safetyLimit : Option Nat
deriving DecidableEq

/-- Externally observable events of one operation, in order. -/
inductive Event (α : Type) where
  /-- an `emit('flush', batch, saturated)` call (non-cargo branch). -/
  | flushEvent : List α → Bool → Event α
  /-- an invocation of the cargo handler with the spliced chunk. -/
  | cargoCall : List α → Event α
  /-- the `debug(... safety limit ...)` diagnostic on a dropped item. -/
  | droppedDiag : Event α
deriving DecidableEq

/-- The mutable state of a `BatchedQueue` instance. -/
structure Queue (α : Type) where
  /-- Field `this._q` -/
  q : List α
  /-- Field `this._flushLimit` -/
  flushLimit : Nat
  /-- Field `this._intervalThreshold` -/
  intervalThreshold : Nat
  /-- Field `this._cargoMode` -/
  cargoMode : Bool
  /-- Field `this._cargoLimit`; only ever assigned in cargo mode, `undefined`
  (modelled as `0`) otherwise — it is never read outside cargo mode. -/
  cargoLimit : Nat
  /-- Field `this._safetyLimit` -/
  safetyLimit : Nat
  /-- Field `this._flushing` -/
  flushing : Bool
  /-- whether `this._timer` is set (a deferred flush is pending). -/
  timer : Bool
  /-- ghost: how many times `setTimeout` has been called on this queue. -/
  arms : Nat
deriving DecidableEq

def DEFAULT_FLUSH_LIMIT : Nat := 10000

def DEFAULT_INTERVAL_THRESHOLD : Nat := 1000

def DEFAULT_CARGO_LIMIT : Nat := 1

def SAFETY_QUEUE_LIMIT : Nat := 2000000

/-- JavaScript `x || d` for a numeric option: `undefined` and `0` are both
falsy and select the default. -/
def jsOr : Option Nat → Nat → Nat
  | none, d => d
  | some n, d => if n = 0 then d else n

/-- The constructor (`new BatchedQueue(options)`). -/
def mkQueue (α : Type) (o : Options) : Queue α :=
  { q := []
    flushLimit := jsOr o.limit DEFAULT_FLUSH_LIMIT
    intervalThreshold := jsOr o.interval DEFAULT_INTERVAL_THRESHOLD
    cargoMode := o.cargo
    cargoLimit := if o.cargo then jsOr o.cargoLimit DEFAULT_CARGO_LIMIT else 0
    safetyLimit := jsOr o.safetyLimit SAFETY_QUEUE_LIMIT
    flushing := true
    timer := false
    arms := 0 }

/-- The `saturated` getter. -/
def saturated (s : Queue α) : Bool :=
  if s.cargoMode then decide (s.cargoLimit ≤ s.q.length)
  else decide (s.flushLimit ≤ s.q.length)

/-- Method `this._clearTimer()` (idempotent when no timer is pending). -/
def clearTimer (s : Queue α) : Queue α := { s with timer := false }

/-- The read `this.cargoMode` inside `_flush`.  The class never defines a
`cargoMode` property — the constructor assigns `this._cargoMode` — so the
property access evaluates to `undefined`, which is falsy. -/
def jsPropCargoMode (_s : Queue α) : Bool := false

/-- Method `this._flush()`.  Clears the timer, computes the saturation flag (for
the diagnostic and the event payload), then either hands a spliced chunk to
the cargo handler and pauses, or emits the buffer as a `'flush'` event and
clears it.  The cargo branch condition reads `this.cargoMode`
(`jsPropCargoMode`, always falsy) and `!isNaN(this._cargoLimit) &&
this._cargoLimit > 0` (a `Nat` is never `NaN`). -/
def flushQ (s : Queue α) : Queue α × List (Event α) :=
  let s1 := clearTimer s
  let sat := saturated s1
  if jsPropCargoMode s1 && decide (0 < s1.cargoLimit) then
    ({ s1 with q := s1.q.drop s1.cargoLimit, flushing := false, timer := false },
      [Event.cargoCall (s1.q.take s1.cargoLimit)])
  else
    ({ s1 with q := [] }, [Event.flushEvent s1.q sat])

/-- Method `this._flushCheck()`: nothing when paused; immediate flush when
saturated; otherwise arm a timer only if none is pending. -/
def flushCheck (s : Queue α) : Queue α × List (Event α) :=
  if s.flushing = false then (s, [])
  else if saturated s then flushQ s
  else if s.timer = false then ({ s with timer := true, arms := s.arms + 1 }, [])
  else (s, [])

/-- Method `push(val)`: drop (with a diagnostic) when the length already exceeds
the safety limit, otherwise append to the tail and run the flush-check. -/
def push (s : Queue α) (v : α) : Queue α × List (Event α) :=
  if s.safetyLimit < s.q.length then (s, [Event.droppedDiag])
  else flushCheck { s with q := s.q ++ [v] }

/-- Method `unshift(val)`: same guard as `push`, but prepends to the head. -/
def unshift (s : Queue α) (v : α) : Queue α × List (Event α) :=
  if s.safetyLimit < s.q.length then (s, [Event.droppedDiag])
  else flushCheck { s with q := v :: s.q }

/-- Method `empty()`: clear the buffer and cancel any pending timer. -/
def empty (s : Queue α) : Queue α := clearTimer { s with q := [] }

/-- Method `pause()`: disable flushing and cancel any pending timer. -/
def pause (s : Queue α) : Queue α := clearTimer { s with flushing := false }

/-- Method `resume()`: re-enable flushing and re-run the flush-check. -/
def resume (s : Queue α) : Queue α × List (Event α) :=
  flushCheck { s with flushing := true }

/-- The public operations plus the firing of the deferred timer. -/
inductive Op (α : Type) where
  | push : α → Op α
  | unshift : α → Op α
  | empty : Op α
  | pause : Op α
  | resume : Op α
  | timerFire : Op α
deriving DecidableEq

/-- One step.  `timerFire` runs `_flush` when a timer is pending (the
`setTimeout` callback is `this._flush.bind(this)`) and is a no-op when no
timer is outstanding. -/
def runOp (s : Queue α) : Op α → Queue α × List (Event α)
  | Op.push v => push s v
  | Op.unshift v => unshift s v
  | Op.empty => (empty s, [])
  | Op.pause => (pause s, [])
  | Op.resume => resume s
  | Op.timerFire => if s.timer then flushQ s else (s, [])

/-- Run a sequence of operations, accumulating the emitted events. -/
def run (s : Queue α) : List (Op α) → Queue α × List (Event α)
  | [] => (s, [])
  | op :: ops =>
    let r1 := runOp s op
    let r2 := run r1.1 ops
    (r2.1, r1.2 ++ r2.2)

/-!
Reference-level view of the non-cargo flush hand-off.

The pure model above passes the buffer around by value, which cannot
express that `this.emit('flush', this._q, saturated)` hands observers the
very array object `this._q` and that `this._q.length = 0` then truncates
that same object in place.  `Heap` models JS array objects as cells
addressed by a reference, and `flushEmitRef` is the pair of source lines
`emit('flush', this._q, sat); this._q.length = 0;` at that level: the
emitted value is the reference itself, and the truncation writes through
that reference.
-/

/-- A heap of JS array objects, addressed by numeric references. -/
structure Heap (α : Type) where
  arr : Nat → List α

/-- The in-place `a.length = 0` truncation of the array behind `r`. -/
def truncate (h : Heap α) (r : Nat) : Heap α :=
  ⟨fun i => if i = r then [] else h.arr i⟩

/-- Lines 112–113 of the source at the reference level: emit the buffer
reference (no copy) together with the saturation flag, then truncate the
cell behind that same reference. -/
def flushEmitRef (h : Heap α) (qRef : Nat) (sat : Bool) : (Nat × Bool) × Heap α :=
  ((qRef, sat), truncate h qRef)

end BatchedQueue

namespace BatchedQueue

/-! Helper lemmas about the individual branches of the operations. -/

/-- Lemma: `_flush` always takes its non-cargo branch (the guard reads the
undefined property `this.cargoMode`): it clears the timer, emits the whole
buffer with the saturation flag, and empties the buffer. -/
theorem flushQ_eq (s : Queue α) :
    flushQ s = ({ s with q := [], timer := false },
                [Event.flushEvent s.q (saturated s)]) := rfl

theorem flushCheck_paused (s : Queue α) (h : s.flushing = false) :
    flushCheck s = (s, []) := by
  simp [flushCheck, h]

theorem flushCheck_saturated (s : Queue α) (hf : s.flushing = true)
    (hs : saturated s = true) : flushCheck s = flushQ s := by
  simp [flushCheck, hf, hs]

theorem flushCheck_arm (s : Queue α) (hf : s.flushing = true)
    (hs : saturated s = false) (ht : s.timer = false) :
    flushCheck s = ({ s with timer := true, arms := s.arms + 1 }, []) := by
  simp [flushCheck, hf, hs, ht]

theorem flushCheck_keep (s : Queue α) (hf : s.flushing = true)
    (hs : saturated s = false) (ht : s.timer = true) :
    flushCheck s = (s, []) := by
  simp [flushCheck, hf, hs, ht]

theorem push_drop (s : Queue α) (v : α) (h : s.safetyLimit < s.q.length) :
    push s v = (s, [Event.droppedDiag]) := by
  simp [push, h]

theorem push_ok (s : Queue α) (v : α) (h : ¬ s.safetyLimit < s.q.length) :
    push s v = flushCheck { s with q := s.q ++ [v] } := by
  simp [push, h]

theorem unshift_drop (s : Queue α) (v : α) (h : s.safetyLimit < s.q.length) :
    unshift s v = (s, [Event.droppedDiag]) := by
  simp [unshift, h]

theorem unshift_ok (s : Queue α) (v : α) (h : ¬ s.safetyLimit < s.q.length) :
    unshift s v = flushCheck { s with q := v :: s.q } := by
  simp [unshift, h]

theorem run_cons (s : Queue α) (op : Op α) (ops : List (Op α)) :
    run s (op :: ops)
      = ((run (runOp s op).1 ops).1, (runOp s op).2 ++ (run (runOp s op).1 ops).2) := rfl

theorem run_append (s : Queue α) (l1 l2 : List (Op α)) :
    run s (l1 ++ l2)
      = ((run (run s l1).1 l2).1, (run s l1).2 ++ (run (run s l1).1 l2).2) := by
  induction l1 generalizing s with
  | nil => simp [run]
  | cons op l1 ih => simp [run_cons, ih, List.append_assoc]

end BatchedQueue

namespace BatchedQueue

/-- An event list with no `'flush'` emit and no cargo invocation (at most
overflow diagnostics). -/
def noFlushOutput (es : List (Event α)) : Bool :=
  es.all fun e =>
    match e with
    | Event.droppedDiag => true
    | _ => false


/-- With flushing disabled, a sequence of pushes never flushes: the pause
flag and the timer are untouched and at most drop diagnostics are emitted. -/
theorem run_push_paused (s : Queue α) (xs : List α) (hf : s.flushing = false) :
    (run s (xs.map Op.push)).1.flushing = false ∧
    (run s (xs.map Op.push)).1.timer = s.timer ∧
    noFlushOutput (run s (xs.map Op.push)).2 = true := by
  induction xs generalizing s with
  | nil => simp [run, noFlushOutput, hf]
  | cons x xs ih =>
    obtain ⟨q, fl, it, cm, cl, sl, fg, tm, ar⟩ := s
    replace hf : fg = false := hf
    subst hf
    by_cases hd : sl < q.length
    · have h1 := ih ⟨q, fl, it, cm, cl, sl, false, tm, ar⟩ rfl
      simp only [List.map_cons, run_cons, runOp, push, hd, if_true, noFlushOutput,
        List.all_append, List.all_cons, Bool.and_eq_true] at h1 ⊢
      exact ⟨h1.1, h1.2.1, by simp, h1.2.2⟩
    · have h1 := ih ⟨q ++ [x], fl, it, cm, cl, sl, false, tm, ar⟩ rfl
      simp only [List.map_cons, run_cons, runOp, push, hd, if_false, flushCheck,
        noFlushOutput] at h1 ⊢
      exact h1

/-- With a timer already pending, every push that stays strictly below the
flush limit and within the safety cap only appends: the same timer stays
pending, no new `setTimeout` call is made, and nothing is emitted. -/
theorem run_push_keep (s : Queue α) (xs : List α)
    (hc : s.cargoMode = false) (hf : s.flushing = true) (ht : s.timer = true)
    (hlim : s.q.length + xs.length < s.flushLimit)
    (hcap : s.q.length + xs.length ≤ s.safetyLimit) :
    run s (xs.map Op.push) = ({ s with q := s.q ++ xs }, []) := by
  induction xs generalizing s with
  | nil => simp [run]
  | cons x xs ih =>
    obtain ⟨q, fl, it, cm, cl, sl, fg, tm, ar⟩ := s
    replace hc : cm = false := hc
    replace hf : fg = true := hf
    replace ht : tm = true := ht
    replace hlim : q.length + (xs.length + 1) < fl := by simpa using hlim
    replace hcap : q.length + (xs.length + 1) ≤ sl := by simpa using hcap
    subst hc hf ht
    have hd : ¬ sl < q.length := by omega
    have hsat : saturated ⟨q ++ [x], fl, it, false, cl, sl, true, true, ar⟩ = false := by
      simp [saturated]
      omega
    have h1 := ih ⟨q ++ [x], fl, it, false, cl, sl, true, true, ar⟩ rfl rfl rfl
      (by simp; omega) (by simp; omega)
    simp only [List.map_cons, run_cons, runOp, push, hd, if_false]
    rw [flushCheck_keep ⟨q ++ [x], fl, it, false, cl, sl, true, true, ar⟩ rfl hsat rfl, h1]
    simp [List.append_assoc]

/-- A first push into a timer-less, unsaturated-after, flushing queue arms
exactly one new timer and emits nothing. -/
theorem push_arm_first (s : Queue α) (x : α)
    (hc : s.cargoMode = false) (hf : s.flushing = true) (ht : s.timer = false)
    (hlim : s.q.length + 1 < s.flushLimit)
    (hcap : ¬ s.safetyLimit < s.q.length) :
    push s x = ({ s with q := s.q ++ [x], timer := true, arms := s.arms + 1 }, []) := by
  obtain ⟨q, fl, it, cm, cl, sl, fg, tm, ar⟩ := s
  replace hc : cm = false := hc
  replace hf : fg = true := hf
  replace ht : tm = false := ht
  replace hlim : q.length + 1 < fl := hlim
  replace hcap : ¬ sl < q.length := hcap
  subst hc hf ht
  have hsat : saturated ⟨q ++ [x], fl, it, false, cl, sl, true, false, ar⟩ = false := by
    simp [saturated]
    omega
  simp only [push, hcap, if_false]
  rw [flushCheck_arm ⟨q ++ [x], fl, it, false, cl, sl, true, false, ar⟩ rfl hsat rfl]

/-- A push that reaches the flush limit of a flushing non-cargo queue
synchronously flushes the whole buffer in insertion order, with the
saturation flag set, leaving an empty buffer and no pending timer. -/
theorem push_saturates (s : Queue α) (x : α)
    (hc : s.cargoMode = false) (hf : s.flushing = true)
    (hsat : s.flushLimit ≤ s.q.length + 1)
    (hcap : ¬ s.safetyLimit < s.q.length) :
    push s x = ({ s with q := [], timer := false },
                [Event.flushEvent (s.q ++ [x]) true]) := by
  obtain ⟨q, fl, it, cm, cl, sl, fg, tm, ar⟩ := s
  replace hc : cm = false := hc
  replace hf : fg = true := hf
  replace hsat : fl ≤ q.length + 1 := hsat
  replace hcap : ¬ sl < q.length := hcap
  subst hc hf
  have hs : saturated ⟨q ++ [x], fl, it, false, cl, sl, true, tm, ar⟩ = true := by
    simp [saturated]
    omega
  simp only [push, hcap, if_false]
  rw [flushCheck_saturated ⟨q ++ [x], fl, it, false, cl, sl, true, tm, ar⟩ rfl hs,
    flushQ_eq]
  simp [hs]

/-- Lemma: `resume()` on a saturated queue flushes right away: the whole buffer is
emitted with `saturated = true` and the buffer is cleared. -/
theorem resume_saturated (u : Queue α) (hs : saturated u = true) :
    resume u = ({ u with q := [], flushing := true, timer := false },
                [Event.flushEvent u.q true]) := by
  obtain ⟨q, fl, it, cm, cl, sl, fg, tm, ar⟩ := u
  replace hs : saturated ⟨q, fl, it, cm, cl, sl, true, tm, ar⟩ = true := hs
  unfold resume
  rw [flushCheck_saturated ⟨q, fl, it, cm, cl, sl, true, tm, ar⟩ rfl hs, flushQ_eq]
  simp [hs]

/-- One step can grow the buffer to at most `safetyLimit + 1` (the drop
guard uses a strict comparison) and never changes the safety limit. -/
theorem runOp_cap_inv (s : Queue α) (op : Op α)
    (h : s.q.length ≤ s.safetyLimit + 1) :
    (runOp s op).1.q.length ≤ (runOp s op).1.safetyLimit + 1 ∧
    (runOp s op).1.safetyLimit = s.safetyLimit := by
  obtain ⟨q, fl, it, cm, cl, sl, fg, tm, ar⟩ := s
  replace h : q.length ≤ sl + 1 := h
  cases op <;>
    simp only [runOp, push, unshift, empty, pause, resume, flushCheck, flushQ,
      clearTimer, jsPropCargoMode, saturated] <;>
    (try split_ifs) <;>
    simp_all

/-- Reachability version of `runOp_cap_inv`. -/
theorem run_cap_inv (s : Queue α) (ops : List (Op α))
    (h : s.q.length ≤ s.safetyLimit + 1) :
    (run s ops).1.q.length ≤ (run s ops).1.safetyLimit + 1 ∧
    (run s ops).1.safetyLimit = s.safetyLimit := by
  induction ops generalizing s with
  | nil => exact ⟨h, rfl⟩
  | cons op ops ih =>
    obtain ⟨h1, h2⟩ := runOp_cap_inv s op h
    obtain ⟨g1, g2⟩ := ih (runOp s op).1 h1
    exact ⟨g1, g2.trans h2⟩

/-- The timer invariant: a pending timer entails that flushing is enabled
and that the buffer is not saturated. -/
def TimerInv (s : Queue α) : Prop :=
  s.timer = true → s.flushing = true ∧ saturated s = false

/-- The flush-check establishes the timer invariant, given only that a
pending timer entails enabled flushing. -/
theorem timerInv_flushCheck (s : Queue α) (h : s.timer = true → s.flushing = true) :
    TimerInv (flushCheck s).1 := by
  obtain ⟨q, fl, it, cm, cl, sl, fg, tm, ar⟩ := s
  replace h : tm = true → fg = true := h
  cases fg
  · have htm : tm = false := by
      cases tm
      · rfl
      · exact absurd (h rfl) (by simp)
    subst htm
    rw [flushCheck_paused ⟨q, fl, it, cm, cl, sl, false, false, ar⟩ rfl]
    intro hx
    exact absurd hx (by simp)
  · by_cases hs : saturated ⟨q, fl, it, cm, cl, sl, true, tm, ar⟩ = true
    · rw [flushCheck_saturated ⟨q, fl, it, cm, cl, sl, true, tm, ar⟩ rfl hs, flushQ_eq]
      intro hx
      exact absurd hx (by simp)
    · replace hs : saturated ⟨q, fl, it, cm, cl, sl, true, tm, ar⟩ = false := by
        revert hs
        cases saturated ⟨q, fl, it, cm, cl, sl, true, tm, ar⟩ <;> simp
      cases tm
      · rw [flushCheck_arm ⟨q, fl, it, cm, cl, sl, true, false, ar⟩ rfl hs rfl]
        exact fun _ => ⟨rfl, hs⟩
      · rw [flushCheck_keep ⟨q, fl, it, cm, cl, sl, true, true, ar⟩ rfl hs rfl]
        exact fun _ => ⟨rfl, hs⟩

/-- Every operation preserves the timer invariant. -/
theorem timerInv_runOp (s : Queue α) (op : Op α) (h : TimerInv s) :
    TimerInv (runOp s op).1 := by
  have hTF : s.timer = true → s.flushing = true := fun ht => (h ht).1
  cases op with
  | push v =>
    by_cases hd : s.safetyLimit < s.q.length
    · show TimerInv (push s v).1
      rw [push_drop s v hd]
      exact h
    · show TimerInv (push s v).1
      rw [push_ok s v hd]
      exact timerInv_flushCheck _ hTF
  | unshift v =>
    by_cases hd : s.safetyLimit < s.q.length
    · show TimerInv (unshift s v).1
      rw [unshift_drop s v hd]
      exact h
    · show TimerInv (unshift s v).1
      rw [unshift_ok s v hd]
      exact timerInv_flushCheck _ hTF
  | empty =>
    intro hx
    exact absurd hx (by simp [runOp, empty, clearTimer])
  | pause =>
    intro hx
    exact absurd hx (by simp [runOp, pause, clearTimer])
  | resume =>
    exact timerInv_flushCheck _ (fun _ => rfl)
  | timerFire =>
    obtain ⟨q, fl, it, cm, cl, sl, fg, tm, ar⟩ := s
    cases tm
    · simpa [runOp] using h
    · simp only [runOp, if_true, flushQ_eq]
      intro hx
      exact absurd hx (by simp)

/-- Every reachable successor of a state satisfying the timer invariant
satisfies it as well. -/
theorem timerInv_run (s : Queue α) (ops : List (Op α)) (h : TimerInv s) :
    TimerInv (run s ops).1 := by
  induction ops generalizing s with
  | nil => exact h
  | cons op ops ih => exact ih (runOp s op).1 (timerInv_runOp s op h)

/-! Concrete configurations used by counterexamples and witnesses. -/

/-- No options at all (non-cargo, all defaults). -/
def oDflt : Options := ⟨none, none, false, none, none⟩

/-- A cargo handler with `cargoLimit = 1`. -/
def oCargo1 : Options := ⟨none, none, true, some 1, none⟩

/-- Non-cargo with `safetyLimit = 1`. -/
def oCap1 : Options := ⟨none, none, false, none, some 1⟩

/-- Non-cargo with `limit = 2`. -/
def oL2 : Options := ⟨some 2, none, false, none, none⟩

/-- Non-cargo with `limit = 3`. -/
def oL3 : Options := ⟨some 3, none, false, none, none⟩

/-- C1 (code bug): the claim — and the spec — say a cargo-mode flush
removes the first `cargoChunkSize` items, passes exactly those to the cargo
handler with a resume callback, and pauses until the callback runs.  The
code disagrees with its own constructor: `_flush` reads `this.cargoMode`,
a property that is never assigned (the constructor assigns
`this._cargoMode`), so the read yields `undefined` and the cargo branch is
dead.  First conjunct: every flush takes the non-cargo branch — whole
buffer emitted as a `'flush'` event, handler never invoked.  Second
conjunct evaluates the failing input: a cargo queue with `cargoLimit = 1`
(so `N = 1`) receiving `2N = 2` pushes produces two `'flush'` emits and
zero cargo-handler invocations, instead of two sequential handler
invocations of one item each. -/
theorem cargo_handler_never_invoked :
    (∀ (α : Type) (s : Queue α),
      flushQ s = ({ s with q := [], timer := false },
                  [Event.flushEvent s.q (saturated s)])) ∧
    run (mkQueue Nat oCargo1) [Op.push 1, Op.push 2]
      = (mkQueue Nat oCargo1,
         [Event.flushEvent [1] true, Event.flushEvent [2] true]) :=
  ⟨fun _ s => flushQ_eq s, by decide⟩

/-- C2 counterexample: with `safetyLimit = 1`, two pushes leave the buffer
at length 2 — an enqueue at a length that does not yet strictly exceed the
cap is not dropped, so the buffer length does exceed `safetyLimit` after a
push, refuting the claimed bound. -/
theorem cap_exceeded_after_push :
    (mkQueue Nat oCap1).safetyLimit
      < (run (mkQueue Nat oCap1) [Op.push 0, Op.push 0]).1.q.length := by
  decide

/-- C2 (amended): over every operation sequence from a freshly constructed
queue, the buffer length never exceeds `safetyLimit + 1`: an enqueue is
dropped only when the length already strictly exceeds `safetyLimit`, so a
push arriving at length exactly `safetyLimit` is still queued, and that is
the only overshoot possible. -/
theorem buffer_length_le_cap_succ (α : Type) (o : Options) (ops : List (Op α)) :
    (run (mkQueue α o) ops).1.q.length ≤ (mkQueue α o).safetyLimit + 1 := by
  obtain ⟨h1, h2⟩ := run_cap_inv (mkQueue α o) ops (by simp [mkQueue])
  rw [← h2]
  exact h1

/-- C3 counterexample: `resume()` on a freshly constructed queue arms a
timer although the buffer is empty, and when that timer fires the queue
spontaneously flushes an empty batch — refuting both the "non-empty at the
last check" direction of the claimed iff and the claimed guard. -/
theorem timer_armed_with_empty_buffer :
    (resume (mkQueue Nat oDflt)).1.timer = true ∧
    (resume (mkQueue Nat oDflt)).1.q = [] ∧
    (runOp (resume (mkQueue Nat oDflt)).1 Op.timerFire).2
      = [Event.flushEvent [] false] := by
  decide

/-- C3 (amended): at every state reachable through the public operations, a
pending timer entails that flushing is enabled and the buffer is not
saturated; in the other direction the flush-check arms a timer whenever
flushing is enabled, no timer is pending and the buffer is unsaturated —
with no non-emptiness guard, so a flush of an empty buffer can occur
spontaneously (via `resume` on an empty queue). -/
theorem timer_inv_reachable (α : Type) (o : Options) (ops : List (Op α)) :
    TimerInv (run (mkQueue α o) ops).1 ∧
    ∀ s : Queue α, s.flushing = true → saturated s = false → s.timer = false →
      (flushCheck s).1.timer = true :=
  ⟨timerInv_run (mkQueue α o) ops (fun hx => absurd hx (by simp [mkQueue])),
   fun s hf hs ht => by rw [flushCheck_arm s hf hs ht]⟩

theorem timer_inv_reachable_witness :
    ((run (mkQueue Nat oDflt) [Op.resume]).1.flushing = true ∧
      saturated (run (mkQueue Nat oDflt) [Op.resume]).1 = false) ∧
    (flushCheck (mkQueue Nat oDflt)).1.timer = true :=
  ⟨(timer_inv_reachable Nat oDflt [Op.resume]).1 (by decide),
   (timer_inv_reachable Nat oDflt []).2 (mkQueue Nat oDflt) rfl (by decide) rfl⟩

/-- The heap cell 0 holds the two-element buffer used as the C4 failing
input. -/
def h12 : Heap Nat := ⟨fun _ => [1, 2]⟩

/-- C4 counterexample: the batch handed to observers is the buffer
reference itself, and the queue truncates that cell right after the emit:
after the flush the handed-off reference no longer holds the emitted
contents, refuting "not mutated further by the queue after the handoff". -/
theorem emitted_batch_reference_mutated :
    (flushEmitRef h12 0 true).1.1 = 0 ∧
    ¬ (flushEmitRef h12 0 true).2.arr 0 = h12.arr 0 := by
  constructor
  · rfl
  · intro hx
    have hx2 : ([] : List Nat) = [1, 2] := hx
    simp at hx2

/-- C4 (amended): a non-cargo flush emits the entire current buffer
together with the saturation flag and clears the buffer — but the batch is
handed off by reference (no copy), and the in-place truncation
`this._q.length = 0` mutates that same reference immediately after the
hand-off, leaving the emitted reference holding the empty list.  The last
conjunct is the list-level view: the emitted contents are the full buffer
and the post-flush buffer is empty. -/
theorem flush_emits_then_truncates_ref (α : Type) (h : Heap α) (r : Nat) (sat : Bool) :
    flushEmitRef h r sat = ((r, sat), truncate h r) ∧
    (flushEmitRef h r sat).2.arr r = [] ∧
    ∀ s : Queue α,
      (flushQ s).2 = [Event.flushEvent s.q (saturated s)] ∧ (flushQ s).1.q = [] :=
  ⟨rfl, by simp [flushEmitRef, truncate], fun s => ⟨rfl, rfl⟩⟩

/-- C8: a push or unshift at a buffer length already strictly beyond the
safety limit only emits the diagnostic: the item is dropped, nothing is
raised (the operations are total), and the returned queue is the unchanged
receiver, so chaining and all later operations behave as before. -/
theorem overflow_drop_is_silent (α : Type) (s : Queue α) (v : α)
    (h : s.safetyLimit < s.q.length) :
    push s v = (s, [Event.droppedDiag]) ∧
    unshift s v = (s, [Event.droppedDiag]) :=
  ⟨push_drop s v h, unshift_drop s v h⟩

/-- A queue whose buffer length strictly exceeds its safety limit. -/
def sOver : Queue Nat :=
  { q := [0, 0, 0], flushLimit := 10000, intervalThreshold := 1000,
    cargoMode := false, cargoLimit := 0, safetyLimit := 1,
    flushing := true, timer := false, arms := 0 }

theorem overflow_drop_is_silent_witness :
    push sOver 7 = (sOver, [Event.droppedDiag]) ∧
    unshift sOver 7 = (sOver, [Event.droppedDiag]) :=
  overflow_drop_is_silent Nat sOver 7 (by decide)

/-- C9: an absent option and a configured `0` are indistinguishable — both
are falsy for `||` — and construction succeeds with the defaults: limit
10000, interval 1000 ms, safetyLimit 2000000, and cargoLimit 1 where that
option is consulted (it is only ever assigned, and read, when a cargo
handler is supplied); flushing starts enabled, the buffer empty, no timer
pending. -/
theorem falsy_options_use_defaults (α : Type) (o : Options)
    (hl : o.limit = none ∨ o.limit = some 0)
    (hi : o.interval = none ∨ o.interval = some 0)
    (hcl : o.cargoLimit = none ∨ o.cargoLimit = some 0)
    (hs : o.safetyLimit = none ∨ o.safetyLimit = some 0) :
    mkQueue α o =
      { q := [], flushLimit := DEFAULT_FLUSH_LIMIT,
        intervalThreshold := DEFAULT_INTERVAL_THRESHOLD,
        cargoMode := o.cargo,
        cargoLimit := if o.cargo then DEFAULT_CARGO_LIMIT else 0,
        safetyLimit := SAFETY_QUEUE_LIMIT,
        flushing := true, timer := false, arms := 0 } := by
  obtain ⟨l, i, c, cL, sL⟩ := o
  rcases hl with h | h <;> rcases hi with h2 | h2 <;> rcases hcl with h3 | h3 <;>
    rcases hs with h4 | h4 <;>
    simp_all [mkQueue, jsOr]

theorem falsy_options_use_defaults_witness :
    mkQueue Nat ⟨some 0, some 0, true, some 0, some 0⟩ =
      { q := [], flushLimit := 10000, intervalThreshold := 1000,
        cargoMode := true, cargoLimit := 1, safetyLimit := 2000000,
        flushing := true, timer := false, arms := 0 } :=
  falsy_options_use_defaults Nat ⟨some 0, some 0, true, some 0, some 0⟩
    (Or.inr rfl) (Or.inr rfl) (Or.inr rfl) (Or.inr rfl)

/-- C10: `resume()` on a queue with an empty, unsaturated buffer and no
pending timer arms the interval timer even though nothing is queued; if
that timer then fires with the buffer still empty, the flush runs anyway
and (non-cargo) emits a `'flush'` event carrying an empty batch with
`saturated = false`. -/
theorem resume_empty_arms_and_flushes (α : Type) (s : Queue α)
    (hq : s.q = []) (ht : s.timer = false) (hc : s.cargoMode = false)
    (hns : saturated s = false) :
    resume s = ({ s with flushing := true, timer := true, arms := s.arms + 1 }, []) ∧
    runOp { s with flushing := true, timer := true, arms := s.arms + 1 } Op.timerFire
      = ({ s with q := [], flushing := true, timer := false, arms := s.arms + 1 },
         [Event.flushEvent [] false]) := by
  obtain ⟨q, fl, it, cm, cl, sl, fg, tm, ar⟩ := s
  replace hq : q = [] := hq
  replace ht : tm = false := ht
  replace hc : cm = false := hc
  subst hq ht hc
  replace hns : saturated ⟨[], fl, it, false, cl, sl, true, false, ar⟩ = false := hns
  constructor
  · unfold resume
    rw [flushCheck_arm ⟨[], fl, it, false, cl, sl, true, false, ar⟩ rfl hns rfl]
  · have hns2 : saturated ⟨[], fl, it, false, cl, sl, true, true, ar + 1⟩ = false := hns
    have hstep : runOp (⟨[], fl, it, false, cl, sl, true, true, ar + 1⟩ : Queue α) Op.timerFire
        = flushQ ⟨[], fl, it, false, cl, sl, true, true, ar + 1⟩ := rfl
    rw [hstep, flushQ_eq]
    simp [hns2]

theorem resume_empty_arms_and_flushes_witness :
    resume (mkQueue Nat oDflt)
      = ({ mkQueue Nat oDflt with flushing := true, timer := true, arms := 1 }, []) ∧
    runOp { mkQueue Nat oDflt with flushing := true, timer := true, arms := 1 } Op.timerFire
      = ({ mkQueue Nat oDflt with q := [], flushing := true, timer := false, arms := 1 },
         [Event.flushEvent [] false]) :=
  resume_empty_arms_and_flushes Nat (mkQueue Nat oDflt) rfl rfl rfl (by decide)

/-- C5: for a non-cargo queue with flushing enabled, no pending timer, an
empty buffer and size threshold `L = ys.length + 1 ≥ 1` not above the
safety cap, the first `L - 1` pushes emit nothing at all, and the `L`-th
push triggers an immediate synchronous flush whose batch contains all `L`
items in insertion order with `saturated = true`, leaving an empty buffer
(and no pending timer) afterwards. -/
theorem threshold_push_flushes (α : Type) (s : Queue α) (ys : List α) (z : α)
    (hq : s.q = []) (hc : s.cargoMode = false) (hf : s.flushing = true)
    (ht : s.timer = false)
    (hlen : ys.length + 1 = s.flushLimit)
    (hcap : s.flushLimit ≤ s.safetyLimit) :
    (run s (ys.map Op.push)).2 = [] ∧
    (run s ((ys ++ [z]).map Op.push)).1.q = [] ∧
    (run s ((ys ++ [z]).map Op.push)).1.flushing = true ∧
    (run s ((ys ++ [z]).map Op.push)).1.timer = false ∧
    (run s ((ys ++ [z]).map Op.push)).2 = [Event.flushEvent (ys ++ [z]) true] := by
  obtain ⟨q, fl, it, cm, cl, sl, fg, tm, ar⟩ := s
  replace hq : q = [] := hq
  replace hc : cm = false := hc
  replace hf : fg = true := hf
  replace ht : tm = false := ht
  subst hq hc hf ht
  replace hlen : ys.length + 1 = fl := hlen
  replace hcap : fl ≤ sl := hcap
  cases ys with
  | nil =>
    have hfl : fl = 1 := by simpa using hlen.symm
    subst hfl
    have hlast := push_saturates (⟨[], 1, it, false, cl, sl, true, false, ar⟩ : Queue α) z
      rfl rfl (by simp) (by simp)
    have hlast2 : push (⟨[], 1, it, false, cl, sl, true, false, ar⟩ : Queue α) z
        = (⟨[], 1, it, false, cl, sl, true, false, ar⟩, [Event.flushEvent [z] true]) := by
      rw [hlast]
      simp
    refine ⟨rfl, ?_, ?_, ?_, ?_⟩ <;>
      simp only [List.nil_append, List.map_cons, List.map_nil, run_cons, runOp, hlast2] <;>
      simp [run]
  | cons y ys' =>
    simp only [List.length_cons] at hlen
    have harm := push_arm_first (⟨[], fl, it, false, cl, sl, true, false, ar⟩ : Queue α) y
      rfl rfl rfl (by simp; omega) (by simp)
    have harm2 : push (⟨[], fl, it, false, cl, sl, true, false, ar⟩ : Queue α) y
        = (⟨[y], fl, it, false, cl, sl, true, true, ar + 1⟩, []) := by
      rw [harm]
      simp
    have hkeep := run_push_keep (⟨[y], fl, it, false, cl, sl, true, true, ar + 1⟩ : Queue α)
      ys' rfl rfl rfl (by simp; omega) (by simp; omega)
    have hkeep2 : run (⟨[y], fl, it, false, cl, sl, true, true, ar + 1⟩ : Queue α)
        (ys'.map Op.push)
        = (⟨y :: ys', fl, it, false, cl, sl, true, true, ar + 1⟩, []) := by
      rw [hkeep]
      simp
    have hlast := push_saturates (⟨y :: ys', fl, it, false, cl, sl, true, true, ar + 1⟩ : Queue α)
      z rfl rfl (by simp; omega) (by simp; omega)
    have hlast2 : push (⟨y :: ys', fl, it, false, cl, sl, true, true, ar + 1⟩ : Queue α) z
        = (⟨[], fl, it, false, cl, sl, true, false, ar + 1⟩,
           [Event.flushEvent (y :: (ys' ++ [z])) true]) := by
      rw [hlast]
      simp
    have hrun1 : run (⟨[], fl, it, false, cl, sl, true, false, ar⟩ : Queue α)
        ((y :: ys').map Op.push)
        = (⟨y :: ys', fl, it, false, cl, sl, true, true, ar + 1⟩, []) := by
      rw [List.map_cons, run_cons]
      simp only [runOp, harm2]
      rw [hkeep2]
      simp
    have hrun2 : run (⟨[], fl, it, false, cl, sl, true, false, ar⟩ : Queue α)
        (((y :: ys') ++ [z]).map Op.push)
        = (⟨[], fl, it, false, cl, sl, true, false, ar + 1⟩,
           [Event.flushEvent (y :: (ys' ++ [z])) true]) := by
      rw [List.map_append, run_append, hrun1]
      simp only [List.map_cons, List.map_nil, run_cons, runOp, hlast2]
      simp [run]
    refine ⟨by rw [hrun1], ?_, ?_, ?_, ?_⟩ <;> (rw [hrun2]; try simp)

theorem threshold_push_flushes_witness :
    (run (mkQueue Nat oL3) ([0, 1].map Op.push)).2 = [] ∧
    (run (mkQueue Nat oL3) (([0, 1] ++ [2]).map Op.push)).1.q = [] ∧
    (run (mkQueue Nat oL3) (([0, 1] ++ [2]).map Op.push)).1.flushing = true ∧
    (run (mkQueue Nat oL3) (([0, 1] ++ [2]).map Op.push)).1.timer = false ∧
    (run (mkQueue Nat oL3) (([0, 1] ++ [2]).map Op.push)).2
      = [Event.flushEvent ([0, 1] ++ [2]) true] :=
  threshold_push_flushes Nat (mkQueue Nat oL3) [0, 1] 2 rfl rfl rfl rfl
    (by decide) (by decide)

/-- C6: after `pause()`, no sequence of pushes produces a flush (or any
cargo hand-off), however far past the flush-triggering size the buffer
grows; a subsequent `resume()` on the now-saturated buffer immediately
flushes it: the whole buffer is emitted with `saturated = true` and the
buffer is cleared. -/
theorem pause_blocks_resume_flushes (α : Type) (s : Queue α) (xs : List α)
    (hsat : saturated (run (pause s) (xs.map Op.push)).1 = true) :
    noFlushOutput (run (pause s) (xs.map Op.push)).2 = true ∧
    resume (run (pause s) (xs.map Op.push)).1
      = ({ (run (pause s) (xs.map Op.push)).1 with
            q := [], flushing := true, timer := false },
         [Event.flushEvent (run (pause s) (xs.map Op.push)).1.q true]) :=
  ⟨(run_push_paused (pause s) xs rfl).2.2, resume_saturated _ hsat⟩

theorem pause_blocks_resume_flushes_witness :
    noFlushOutput (run (pause (mkQueue Nat oL2)) ([5, 6, 7].map Op.push)).2 = true ∧
    resume (run (pause (mkQueue Nat oL2)) ([5, 6, 7].map Op.push)).1
      = ({ (run (pause (mkQueue Nat oL2)) ([5, 6, 7].map Op.push)).1 with
            q := [], flushing := true, timer := false },
         [Event.flushEvent (run (pause (mkQueue Nat oL2)) ([5, 6, 7].map Op.push)).1.q true]) :=
  pause_blocks_resume_flushes Nat (mkQueue Nat oL2) [5, 6, 7] (by decide)

/-- C7: when a timer is pending and a flush-check runs without saturation
(flushing enabled), the state is returned completely untouched — in
particular the `setTimeout` counter is unchanged, so the pending timer is
the very handle armed earlier, neither cleared nor re-armed.  Consequently
a further push that is neither dropped nor saturating only appends to the
buffer: same pending timer, same counter, nothing emitted — pushes within
one interval window share the single timer armed by the first push. -/
theorem pending_timer_untouched (α : Type) (s : Queue α)
    (hf : s.flushing = true) (ht : s.timer = true) (hns : saturated s = false) :
    flushCheck s = (s, []) ∧
    ∀ v : α, ¬ s.safetyLimit < s.q.length →
      saturated { s with q := s.q ++ [v] } = false →
      push s v = ({ s with q := s.q ++ [v] }, []) :=
  ⟨flushCheck_keep s hf hns ht,
   fun v hd hs2 => by rw [push_ok s v hd, flushCheck_keep { s with q := s.q ++ [v] } hf hs2 ht]⟩

/-- A queue with one item buffered and its interval timer pending. -/
def sTimer : Queue Nat :=
  { q := [9], flushLimit := 5, intervalThreshold := 1000, cargoMode := false,
    cargoLimit := 0, safetyLimit := 100, flushing := true, timer := true, arms := 1 }

theorem pending_timer_untouched_witness :
    flushCheck sTimer = (sTimer, []) ∧
    push sTimer 3 = ({ sTimer with q := [9, 3] }, []) :=
  ⟨(pending_timer_untouched Nat sTimer rfl rfl (by decide)).1,
   (pending_timer_untouched Nat sTimer rfl rfl (by decide)).2 3 (by decide) (by decide)⟩

end BatchedQueue
